import Mathlib

set_option maxRecDepth 10000

/-!
# Verification of the admin analytics aggregation core

Shallow embedding of the data-processing core of the `toggl_server` package
(`admin_processor.py`, `models.py`, and the sorting logic of `main.py`).
Decimal and float values of the source are modelled as exact rationals
(`ℚ`), with the source's explicit rounding steps (`Decimal.quantize` with
half-up rounding, Python `round` with half-even rounding) modelled
explicitly.  One dynamic-typing effect is semantically essential and is
modelled as such: in every summary/insights labor-cost loop the source
multiplies a `float` (`entry_hours`, from `_milliseconds_to_hours`) by a
`Decimal` (`entry_rate`, from `_safe_decimal`), which raises `TypeError`
in Python on the first sub-entry.  These loops are therefore embedded as
`Except`-valued computations that fail on any nonempty `items[]` list;
the project processor catches the error and drops the item, while the
organization/employee/client processors propagate it.
-/

namespace TogglAdmin

/-- Round a rational to the nearest integer with ties going to the even
integer; models Python's built-in `round` on the underlying value. -/
def roundHalfEvenInt (x : ℚ) : ℤ :=
  if x - (⌊x⌋ : ℚ) < 1/2 then ⌊x⌋
  else if 1/2 < x - (⌊x⌋ : ℚ) then ⌊x⌋ + 1
  else if ⌊x⌋ % 2 = 0 then ⌊x⌋ else ⌊x⌋ + 1

/-- Round to 2 decimal places, half to even; models `round(value, 2)`
in `_milliseconds_to_hours` (admin_processor.py line 44). -/
def round2 (q : ℚ) : ℚ :=
  ((roundHalfEvenInt (q * 100) : ℤ) : ℚ) / 100

/-- Round to 1 decimal place, half to even; models `round(value, 1)` in
`process_time_tracking_insights` (admin_processor.py line 656). -/
def round1 (q : ℚ) : ℚ :=
  ((roundHalfEvenInt (q * 10) : ℤ) : ℚ) / 10

/-- Quantize to 2 decimal places with ROUND_HALF_UP (ties away from zero);
models `Decimal.quantize(Decimal('0.01'), rounding=ROUND_HALF_UP)` in
`_safe_decimal` (admin_processor.py lines 31-38). -/
def quantizeHalfUp (q : ℚ) : ℚ :=
  if q < 0 then -(((⌊-q * 100 + 1/2⌋ : ℤ) : ℚ) / 100)
  else ((⌊q * 100 + 1/2⌋ : ℤ) : ℚ) / 100

/-- Model of `_safe_decimal` (admin_processor.py lines 31-38): convert a numeric
payload value to a currency-precision decimal.  The `None`/unparsable → 0
branches are handled by the typed payload model (missing numeric fields
are 0). -/
def safeDecimal (value : ℚ) : ℚ := quantizeHalfUp value

/-- Model of `_milliseconds_to_hours` (admin_processor.py lines 40-44):
`0` (falsy) maps to `0.0`, otherwise `round(ms / 3600000, 2)`. -/
def millisecondsToHours (ms : ℤ) : ℚ :=
  if ms = 0 then 0 else round2 ((ms : ℚ) / 3600000)

theorem roundHalfEvenInt_ge_floor (x : ℚ) : ⌊x⌋ ≤ roundHalfEvenInt x := by
  unfold roundHalfEvenInt
  split_ifs <;> omega

theorem roundHalfEvenInt_le_floor_add_one (x : ℚ) :
    roundHalfEvenInt x ≤ ⌊x⌋ + 1 := by
  unfold roundHalfEvenInt
  split_ifs <;> omega

theorem roundHalfEvenInt_mono {x y : ℚ} (h : x ≤ y) :
    roundHalfEvenInt x ≤ roundHalfEvenInt y := by
  rcases lt_or_eq_of_le (Int.floor_mono h) with hf | hf
  · calc roundHalfEvenInt x ≤ ⌊x⌋ + 1 := roundHalfEvenInt_le_floor_add_one x
      _ ≤ ⌊y⌋ := by omega
      _ ≤ roundHalfEvenInt y := roundHalfEvenInt_ge_floor y
  · have hfx : (⌊x⌋ : ℚ) = (⌊y⌋ : ℚ) := by rw [hf]
    unfold roundHalfEvenInt
    have hxy : x - (⌊x⌋ : ℚ) ≤ y - (⌊y⌋ : ℚ) := by rw [← hfx]; linarith
    split_ifs with h1 h2 h3 h4 h5 h6 h7 h8 h9 h10 h11 <;>
      rw [hf] <;> first | omega | linarith

theorem round2_mono {x y : ℚ} (h : x ≤ y) : round2 x ≤ round2 y := by
  unfold round2
  have := roundHalfEvenInt_mono (mul_le_mul_of_nonneg_right h (by norm_num : (0:ℚ) ≤ 100))
  have hc : ((roundHalfEvenInt (x * 100) : ℤ) : ℚ) ≤ ((roundHalfEvenInt (y * 100) : ℤ) : ℚ) := by
    exact_mod_cast this
  linarith

theorem roundHalfEvenInt_zero : roundHalfEvenInt 0 = 0 := by
  unfold roundHalfEvenInt
  norm_num

theorem millisecondsToHours_eq (ms : ℤ) :
    millisecondsToHours ms = round2 ((ms : ℚ) / 3600000) := by
  unfold millisecondsToHours
  split_ifs with h
  · subst h
    unfold round2
    simp [roundHalfEvenInt_zero]
  · rfl

theorem millisecondsToHours_mono {a b : ℤ} (h : a ≤ b) :
    millisecondsToHours a ≤ millisecondsToHours b := by
  rw [millisecondsToHours_eq, millisecondsToHours_eq]
  apply round2_mono
  have : (a : ℚ) ≤ (b : ℚ) := by exact_mod_cast h
  linarith

/-! ## Payload model (Toggl Reports API v2 / v3 shapes as read by the code) -/

/-- One element of a `total_currencies` array: `{currency, amount}`. -/
structure CurrencyAmount where
  currency : String
  amount : ℚ
  deriving DecidableEq

/-- The nested `title` object of a grouped report item.  Each field models
the corresponding dictionary key, `none` meaning the key is absent. -/
structure ItemTitle where
  project : Option String
  name : Option String
  client : Option String
  user : Option String
  deriving DecidableEq

/-- One element of a grouped item's `items[]` array: `{time (ms), rate}`.
Missing numeric fields default to 0 (the code reads them with
`.get(key, 0)`). -/
structure SubEntry where
  time : ℤ
  rate : ℚ
  deriving DecidableEq

/-- One element of a report's `data[]` array (a project / user / client
group).  `id = none` models a missing `id` key. -/
structure GroupItem where
  id : Option ℤ
  title : ItemTitle
  time : ℤ
  total_currencies : List CurrencyAmount
  items : List SubEntry
  deriving DecidableEq

/-- A summary/insights report payload (Reports API v2 shape):
`total_grand`/`total_billable` in milliseconds, the top-level
`total_currencies`, and the `data` collection (`none` = key missing). -/
structure ReportPayload where
  total_grand : ℤ
  total_billable : ℤ
  total_currencies : List CurrencyAmount
  data : Option (List GroupItem)
  deriving DecidableEq

/-- Workspace info as read by `process_organization_summary`. -/
structure WorkspaceInfo where
  id : ℤ
  name : String
  default_currency : String
  deriving DecidableEq

/-- One element of a Reports API v3 detailed entry's `time_entries[]`. -/
structure V3TimeEntry where
  seconds : ℤ
  deriving DecidableEq

/-- A Reports API v3 detailed entry as read by the v3 processing
functions: `hourly_rate_in_cents`, `billable_amount_in_cents`,
`time_entries[]`. -/
structure V3Entry where
  hourly_rate_in_cents : ℚ
  billable_amount_in_cents : ℚ
  time_entries : List V3TimeEntry
  deriving DecidableEq

/-! ## Output record model (models.py) -/

/-- Record `ProjectProfitability` (models.py lines 54-84). -/
structure ProjectProfitability where
  project_id : ℤ
  project_name : String
  client_name : Option String
  total_hours : ℚ
  billable_hours : ℚ
  non_billable_hours : ℚ
  revenue : ℚ
  labor_cost : ℚ
  profit : ℚ
  profit_margin : ℚ
  billable_rate : Option ℚ
  currency : String
  active_users : ℤ
  time_entries_count : ℕ
  deriving DecidableEq

/-- Property `ProjectProfitability.utilization_rate` (models.py lines 72-77). -/
def ProjectProfitability.utilization_rate (p : ProjectProfitability) : ℚ :=
  if p.total_hours = 0 then 0 else p.billable_hours / p.total_hours * 100

/-- Record `EmployeeProfitability` (models.py lines 86-99). -/
structure EmployeeProfitability where
  user_id : ℤ
  username : String
  email : Option String
  total_hours : ℚ
  billable_hours : ℚ
  non_billable_hours : ℚ
  billable_rate : Option ℚ
  labor_cost : ℚ
  revenue_generated : ℚ
  projects_worked : ℤ
  time_entries_count : ℕ
  deriving DecidableEq

/-- Property `EmployeeProfitability.utilization_rate` (models.py lines 101-106). -/
def EmployeeProfitability.utilization_rate (e : EmployeeProfitability) : ℚ :=
  if e.total_hours = 0 then 0 else e.billable_hours / e.total_hours * 100

/-- Record `ClientProfitability` (models.py lines 122-135).  Note: no
non-billable-hours field and no utilization property exist here. -/
structure ClientProfitability where
  client_id : Option ℤ
  client_name : String
  total_hours : ℚ
  billable_hours : ℚ
  revenue : ℚ
  labor_cost : ℚ
  profit : ℚ
  profit_margin : ℚ
  active_projects : ℤ
  active_users : ℤ
  currency : String
  deriving DecidableEq

/-- Record `OrganizationSummary` (models.py lines 137-160). -/
structure OrganizationSummary where
  workspace_id : ℤ
  workspace_name : String
  date_range : String
  currency : String
  total_hours : ℚ
  billable_hours : ℚ
  non_billable_hours : ℚ
  total_revenue : ℚ
  total_labor_cost : ℚ
  total_profit : ℚ
  average_hourly_rate : ℚ
  active_projects : ℕ
  active_clients : ℤ
  active_users : ℤ
  total_time_entries : ℕ
  deriving DecidableEq

/-- The dictionary returned by `process_profitability_from_v3_data`
(admin_processor.py lines 136-145). -/
structure V3Profitability where
  total_revenue : ℚ
  total_labor_cost : ℚ
  total_profit : ℚ
  profit_margin : ℚ
  total_hours : ℚ
  average_hourly_rate : ℚ
  currency : String
  labor_cost_percentage : ℚ
  deriving DecidableEq

/-! ## Shared processing helpers -/

/-- The repeated revenue-extraction loop (admin_processor.py lines
185-190, 272-278, 430-436, 506-512): scan `total_currencies` for the
first element whose `currency` equals the literal `'USD'` and take its
quantized `amount`; `0` when no such element exists. -/
def extractRevenueUSD (currencies : List CurrencyAmount) : ℚ :=
  match currencies.find? (fun c => c.currency == "USD") with
  | some c => safeDecimal c.amount
  | none => 0

/-- The error raised by Python's numeric tower when the source multiplies
a `float` by a `Decimal` (`unsupported operand type(s) for *`). -/
inductive PyTypeError where
  | floatTimesDecimal
  deriving DecidableEq

/-- The repeated per-entry labor-cost loop over a grouped item's
`items[]` (admin_processor.py lines 193-202, 281-288, 439-446, 515-522).
Each iteration computes `entry_hours = _milliseconds_to_hours(time)` (a
`float`) and `entry_rate = _safe_decimal(rate)` (a `Decimal`) and then
evaluates `entry_hours * entry_rate`, which raises `TypeError` in
Python; so the loop fails on its first sub-entry, and only the empty
loop completes, leaving the accumulator at `Decimal('0')`. -/
def laborCostFromItems (items : List SubEntry) : Except PyTypeError ℚ :=
  match items with
  | [] => Except.ok 0
  | _ :: _ => Except.error PyTypeError.floatTimesDecimal

/-- The hour-validation block repeated at the organization, project and
employee levels (admin_processor.py lines 176-182, 264-270, 419-425):
when `total_hours > 168` cap the total at 80, cap billable at the capped
total, recompute non-billable; otherwise `non_billable = total -
billable` unchanged.  Returns `(total, billable, non_billable)`. -/
def capHours (total_hours billable_hours : ℚ) : ℚ × ℚ × ℚ :=
  if total_hours > 168 then
    (min total_hours 80, min billable_hours (min total_hours 80),
      min total_hours 80 - min billable_hours (min total_hours 80))
  else (total_hours, billable_hours, total_hours - billable_hours)

/-- Project-name extraction from the `title` object (admin_processor.py
lines 302-313): `title.get('project') or title.get('name') or
'Unknown Project'` (Python `or`: empty strings count as missing).  The
further duck-typed fallback on an item-level `project` field (lines
316-317) is outside the typed title model. -/
def projectNameOf (t : ItemTitle) : String :=
  match t.project with
  | some s => if s = "" then (match t.name with
      | some n => if n = "" then "Unknown Project" else n
      | none => "Unknown Project") else s
  | none => match t.name with
      | some n => if n = "" then "Unknown Project" else n
      | none => "Unknown Project"

/-- Client-name extraction for projects (admin_processor.py lines
319-328): `title.get('client')`; a falsy value (absent key or empty
string) only triggers the duck-typed item-level fallback, which is
outside the typed title model, so the title value is kept as-is. -/
def clientNameOf (t : ItemTitle) : Option String :=
  t.client

/-- Dictionary lookup built by keying report items on their (truthy) `id`
(admin_processor.py lines 392-396, 482-486): later items with the same id
overwrite earlier ones, so the last match wins. -/
def lookupById (data : List GroupItem) (uid : ℤ) : Option GroupItem :=
  (data.filter (fun i => i.id == some uid)).getLast?

/-! ## Reports API v3 processing (admin_processor.py lines 46-145) -/

/-- Model of `_calculate_labor_cost_from_v3_data` (admin_processor.py lines 46-76):
per entry, the labor rate is `safe_decimal(hourly_rate_in_cents)/100 *
labor_cost_percentage`; each `time_entries[]` element contributes
`labor_rate * seconds/3600`. -/
def calculateLaborCostFromV3Data (lcp : ℚ) (detailed_entries : List V3Entry) : ℚ :=
  (detailed_entries.map (fun entry =>
    (entry.time_entries.map (fun te =>
      (safeDecimal entry.hourly_rate_in_cents / 100 * lcp) *
        ((te.seconds : ℚ) / 3600))).sum)).sum

/-- Model of `_calculate_revenue_from_v3_data` (admin_processor.py lines 78-96):
sum of `safe_decimal(billable_amount_in_cents)/100` over entries. -/
def calculateRevenueFromV3Data (detailed_entries : List V3Entry) : ℚ :=
  (detailed_entries.map (fun entry =>
    safeDecimal entry.billable_amount_in_cents / 100)).sum

/-- Model of `process_profitability_from_v3_data` (admin_processor.py
lines 98-145). -/
def processProfitabilityFromV3Data (lcp : ℚ) (detailed_entries : List V3Entry)
    (currency : String) : V3Profitability :=
  let total_revenue := calculateRevenueFromV3Data detailed_entries
  let total_labor_cost := calculateLaborCostFromV3Data lcp detailed_entries
  let total_profit := total_revenue - total_labor_cost
  let profit_margin := if total_revenue > 0 then total_profit / total_revenue * 100 else 0
  let total_hours := (detailed_entries.map (fun e =>
    (e.time_entries.map (fun te => (te.seconds : ℚ) / 3600)).sum)).sum
  let average_hourly_rate := if total_hours > 0 then total_revenue / total_hours else 0
  { total_revenue := total_revenue
    total_labor_cost := total_labor_cost
    total_profit := total_profit
    profit_margin := profit_margin
    total_hours := total_hours
    average_hourly_rate := average_hourly_rate
    currency := currency
    labor_cost_percentage := lcp }

/-! ## Organization summary (admin_processor.py lines 147-239) -/

/-- The record constructed by `process_organization_summary`
(admin_processor.py lines 204-239) once the labor-cost loop has produced
a value: hours from the summary payload's `total_grand`/`total_billable`
with the outlier cap, revenue from the insights payload's top-level
`total_currencies` (USD element), entity counts from the summary
`data`. -/
def buildOrganizationSummary (summary_data insights_data : ReportPayload)
    (workspace_info : WorkspaceInfo) (date_range : String)
    (total_labor_cost : ℚ) : OrganizationSummary :=
  let total_hours := millisecondsToHours summary_data.total_grand
  let billable_hours := millisecondsToHours summary_data.total_billable
  let capped := capHours total_hours billable_hours
  let total_revenue := extractRevenueUSD insights_data.total_currencies
  let total_profit := total_revenue - total_labor_cost
  let average_hourly_rate := if capped.2.1 > 0 then total_revenue / capped.2.1 else 0
  let data := summary_data.data.getD []
  { workspace_id := workspace_info.id
    workspace_name := workspace_info.name
    date_range := date_range
    currency := workspace_info.default_currency
    total_hours := capped.1
    billable_hours := capped.2.1
    non_billable_hours := capped.2.2
    total_revenue := total_revenue
    total_labor_cost := total_labor_cost
    total_profit := total_profit
    average_hourly_rate := average_hourly_rate
    active_projects :=
      (data.filter (fun d => (d.id.getD 0 != 0) && (d.title.project.getD "" != ""))).length
    active_clients := 0
    active_users := 0
    total_time_entries := (data.map (fun d => d.items.length)).sum }

/-- Model of `process_organization_summary` (admin_processor.py lines
147-239).  The labor-cost loop over all insights `data[].items[]` (lines
193-202) raises an uncaught `TypeError` at line 201 on the first
sub-entry of the first group that has any, so the whole function errors
whenever any insights group carries entries; otherwise the loop leaves
the labor cost at 0 and the record is built. -/
def processOrganizationSummary (summary_data insights_data : ReportPayload)
    (workspace_info : WorkspaceInfo) (date_range : String) :
    Except PyTypeError OrganizationSummary :=
  ((insights_data.data.getD []).foldlM
      (fun acc item => (laborCostFromItems item.items).map (fun c => acc + c))
      (0 : ℚ)).map
    (buildOrganizationSummary summary_data insights_data workspace_info date_range)

/-! ## Project profitability (admin_processor.py lines 241-375) -/

/-- The record constructed by `process_project_profitability`'s per-item
body (admin_processor.py lines 290-345) once the labor-cost loop has
produced a value: both total and billable milliseconds are the item's
`time` (all tracked time treated as billable), outlier cap, revenue from
the item's `total_currencies` USD element, margin guarded by
`revenue > 0`, billable rate guarded by `billable_hours > 0`. -/
def buildProjectRecord (currency : String) (item : GroupItem)
    (labor_cost : ℚ) : ProjectProfitability :=
  let total_hours := millisecondsToHours item.time
  let billable_hours := millisecondsToHours item.time
  let capped := capHours total_hours billable_hours
  let revenue := extractRevenueUSD item.total_currencies
  let profit := revenue - labor_cost
  let profit_margin := if revenue > 0 then profit / revenue * 100 else 0
  let billable_rate := if capped.2.1 > 0 then some (revenue / capped.2.1) else none
  { project_id := item.id.getD 0
    project_name := projectNameOf item.title
    client_name := clientNameOf item.title
    total_hours := capped.1
    billable_hours := capped.2.1
    non_billable_hours := capped.2.2
    revenue := revenue
    labor_cost := labor_cost
    profit := profit
    profit_margin := profit_margin
    billable_rate := billable_rate
    currency := currency
    active_users := 1
    time_entries_count := item.items.length }

/-- The per-item body of `process_project_profitability`
(admin_processor.py lines 255-345), inside the `try` of lines 255-348:
the labor-cost loop at lines 281-288 raises `TypeError` on the first
sub-entry (float * Decimal), so an item with a nonempty `items[]` never
reaches record construction; an item with empty `items[]` builds the
record with labor cost 0. -/
def processProjectItem (currency : String) (item : GroupItem) :
    Except PyTypeError ProjectProfitability :=
  (laborCostFromItems item.items).map (buildProjectRecord currency item)

/-- Python's stable `sorted(..., key=key, reverse=True)` / `list.sort`:
insertion sort on the relation "key of the left is at least the key of
the right", which keeps equal-key elements in their original order. -/
def pySortDesc {α : Type} (key : α → ℚ) (l : List α) : List α :=
  l.insertionSort (fun a b => key b ≤ key a)

/-- Model of `process_project_profitability` (admin_processor.py lines 241-375):
drop items with a falsy `id`; an item whose per-item body raises is
caught by the `except` at lines 349-353 and skipped (`continue`), so
every item with a nonempty `items[]` is dropped; the surviving records
are sorted by profit descending (line 375).  The attribute-presence
filter of lines 355-372 always passes for typed records. -/
def processProjectProfitability (insights_data : ReportPayload)
    (currency : String) : List ProjectProfitability :=
  let data := insights_data.data.getD []
  let projects := (data.filter (fun item => item.id.getD 0 != 0)).filterMap
    (fun item => (processProjectItem currency item).toOption)
  pySortDesc (fun p => p.profit) projects

/-! ## Employee profitability (admin_processor.py lines 377-469) -/

/-- The record constructed by `process_employee_profitability`'s
per-user body (admin_processor.py lines 448-465) once the labor-cost
loop has produced a value: hours from the summary item (billable =
total), outlier cap, revenue from the matching insights item's
`total_currencies` USD element. -/
def buildEmployeeRecord (insights : Option GroupItem) (item : GroupItem)
    (labor_cost : ℚ) : EmployeeProfitability :=
  let total_hours := millisecondsToHours item.time
  let billable_hours := millisecondsToHours item.time
  let capped := capHours total_hours billable_hours
  let revenue := extractRevenueUSD
    (match insights with | some g => g.total_currencies | none => [])
  let billable_rate := if capped.2.1 > 0 then some (revenue / capped.2.1) else none
  { user_id := item.id.getD 0
    username := item.title.user.getD "Unknown User"
    email := none
    total_hours := capped.1
    billable_hours := capped.2.1
    non_billable_hours := capped.2.2
    billable_rate := billable_rate
    labor_cost := labor_cost
    revenue_generated := revenue
    projects_worked := 1
    time_entries_count := item.items.length }

/-- The per-user body of `process_employee_profitability`
(admin_processor.py lines 399-467): the labor-cost loop over the summary
item's own `items[]` (lines 439-446) raises `TypeError` at line 445 on
the first sub-entry, uncaught, so a user item with a nonempty `items[]`
errors; with empty `items[]` the record is built with labor cost 0. -/
def processEmployeeItem (insights : Option GroupItem) (item : GroupItem) :
    Except PyTypeError EmployeeProfitability :=
  (laborCostFromItems item.items).map (buildEmployeeRecord insights item)

/-- Model of `process_employee_profitability` (admin_processor.py lines 377-469):
the per-user errors propagate (there is no `try` here), so the whole
function errors at the first user item with entries; otherwise records
sorted by utilization rate descending (line 469). -/
def processEmployeeProfitability (user_summary_data user_insights_data : ReportPayload) :
    Except PyTypeError (List EmployeeProfitability) :=
  let insightsData := user_insights_data.data.getD []
  (((user_summary_data.data.getD []).filter
      (fun item => item.id.getD 0 != 0)).mapM
    (fun item => processEmployeeItem (lookupById insightsData (item.id.getD 0)) item)).map
    (pySortDesc (fun e => e.utilization_rate))

/-! ## Client profitability (admin_processor.py lines 471-546) -/

/-- The record constructed by `process_client_profitability`'s
per-client body (admin_processor.py lines 524-542) once the labor-cost
loop has produced a value: hours from the summary item (billable =
total) with NO outlier-cap block, revenue from the matching insights
item. -/
def buildClientRecord (insights : Option GroupItem) (currency : String)
    (item : GroupItem) (labor_cost : ℚ) : ClientProfitability :=
  let total_hours := millisecondsToHours item.time
  let billable_hours := millisecondsToHours item.time
  let revenue := extractRevenueUSD
    (match insights with | some g => g.total_currencies | none => [])
  let profit := revenue - labor_cost
  let profit_margin := if revenue > 0 then profit / revenue * 100 else 0
  { client_id := item.id
    client_name := item.title.client.getD "No Client"
    total_hours := total_hours
    billable_hours := billable_hours
    revenue := revenue
    labor_cost := labor_cost
    profit := profit
    profit_margin := profit_margin
    active_projects := 1
    active_users := 1
    currency := currency }

/-- The per-client body of `process_client_profitability`
(admin_processor.py lines 489-544): the labor-cost loop runs over the
matched insights item's `items[]` (lines 515-522) and raises `TypeError`
at line 521 on the first sub-entry, uncaught; with no matched insights
item or an empty `items[]` the record is built with labor cost 0. -/
def processClientItem (insights : Option GroupItem) (currency : String)
    (item : GroupItem) : Except PyTypeError ClientProfitability :=
  (laborCostFromItems
      (match insights with | some g => g.items | none => [])).map
    (buildClientRecord insights currency item)

/-- Model of `process_client_profitability` (admin_processor.py lines 471-546):
the per-client errors propagate (there is no `try` here), so the whole
function errors at the first client whose insights item has entries;
otherwise records sorted by profit descending (line 546). -/
def processClientProfitability (client_summary_data client_insights_data : ReportPayload)
    (currency : String) : Except PyTypeError (List ClientProfitability) :=
  let insightsData := client_insights_data.data.getD []
  (((client_summary_data.data.getD []).filter
      (fun item => item.id.getD 0 != 0)).mapM
    (fun item => processClientItem (lookupById insightsData (item.id.getD 0)) currency item)).map
    (pySortDesc (fun c => c.profit))

/-! ## Presentation-layer sorting (main.py lines 491-518) -/

/-- The sort dispatch of `_get_project_profitability_analysis` (main.py
lines 504-514): stable descending sort on the selected key; any other
`sort_by` value (notably `"profit"`, the default) leaves the list as the
processor produced it, which is already profit-descending. -/
def sortProjects (sort_by : String) (projects : List ProjectProfitability) :
    List ProjectProfitability :=
  if sort_by = "revenue" then pySortDesc (fun p => p.revenue) projects
  else if sort_by = "margin" then pySortDesc (fun p => p.profit_margin) projects
  else if sort_by = "hours" then pySortDesc (fun p => p.total_hours) projects
  else projects

/-! ## Time tracking insights (admin_processor.py lines 591-682) -/

/-- A detailed time entry as consumed by
`process_time_tracking_insights`: the parsed `start` timestamp is
modelled by its hour of day, weekday name, and calendar-date ordinal;
`dur` is the duration in milliseconds; `project` is
`entry.get('project', 'No Project')`. -/
structure DetailedEntry where
  startHour : ℤ
  startWeekday : String
  startDate : ℤ
  dur : ℤ
  project : String
  deriving DecidableEq

/-- Record `TimeTrackingInsights` (models.py lines 256-274); the project-time
distribution map is modelled as an association list in first-insertion
order (Python dict order). -/
structure TimeTrackingInsights where
  workspace_id : ℤ
  date_range : String
  peak_productivity_hours : List ℤ
  peak_productivity_days : List String
  average_session_length : ℚ
  context_switching_frequency : ℚ
  deep_work_sessions : ℕ
  fragmented_time_percentage : ℚ
  project_time_distribution : List (String × ℚ)
  most_productive_projects : List String
  deriving DecidableEq

/-- Accumulate a weight into a counter kept in first-insertion order;
models `Counter`/`defaultdict` accumulation. -/
def addWeight {K : Type} [BEq K] (k : K) (w : ℚ) : List (K × ℚ) → List (K × ℚ)
  | [] => [(k, w)]
  | (k₂, w₂) :: rest =>
    if k₂ == k then (k₂, w₂ + w) :: rest else (k₂, w₂) :: addWeight k w rest

/-- Fold a list of keyed weights into a counter (first-insertion order). -/
def accumWeights {K : Type} [BEq K] (pairs : List (K × ℚ)) : List (K × ℚ) :=
  pairs.foldl (fun acc p => addWeight p.1 p.2 acc) []

/-- Model of `Counter.most_common(n)` / `sorted(..., key=itemgetter(1),
reverse=True)[:n]`: keys of the top `n` entries by weight, ties kept in
insertion order (Python's sort is stable). -/
def mostCommonKeys {K : Type} (counter : List (K × ℚ)) (n : ℕ) : List K :=
  ((pySortDesc (fun p => p.2) counter).take n).map (fun p => p.1)

/-- Model of `process_time_tracking_insights` (admin_processor.py lines 591-682):
empty input returns the all-empty/zero record (lines 599-611); otherwise
duration-weighted hour/day histograms, session-length statistics, project
time distribution, and the entries-per-day switching proxy. -/
def processTimeTrackingInsights (detailed_entries : List DetailedEntry)
    (workspace_id : ℤ) (date_range : String) : TimeTrackingInsights :=
  match detailed_entries with
  | [] =>
    { workspace_id := workspace_id
      date_range := date_range
      peak_productivity_hours := []
      peak_productivity_days := []
      average_session_length := 0
      context_switching_frequency := 0
      deep_work_sessions := 0
      fragmented_time_percentage := 0
      project_time_distribution := []
      most_productive_projects := [] }
  | entries =>
    let hour_distribution := accumWeights
      (entries.map (fun e => (e.startHour, millisecondsToHours e.dur)))
    let day_distribution := accumWeights
      (entries.map (fun e => (e.startWeekday, millisecondsToHours e.dur)))
    let session_lengths := entries.map (fun e => (e.dur : ℚ) / (1000 * 60))
    let project_hours := accumWeights
      (entries.map (fun e => (e.project, millisecondsToHours e.dur)))
    let daily_project_switches := accumWeights
      (entries.map (fun e => (e.startDate, (1 : ℚ))))
    let avg_session_length :=
      if session_lengths.length = 0 then 0
      else session_lengths.sum / (session_lengths.length : ℚ)
    let deep_work_sessions := (session_lengths.filter (fun s => decide (120 ≤ s))).length
    let fragmented_sessions := (session_lengths.filter (fun s => decide (s < 30))).length
    let fragmented_percentage :=
      if session_lengths.length = 0 then 0
      else (fragmented_sessions : ℚ) / (session_lengths.length : ℚ) * 100
    let total_project_hours := (project_hours.map (fun p => p.2)).sum
    let project_distribution :=
      if total_project_hours > 0 then
        project_hours.map (fun p => (p.1, round1 (p.2 / total_project_hours * 100)))
      else []
    let avg_switches_per_day :=
      if daily_project_switches.length = 0 then 0
      else (daily_project_switches.map (fun p => p.2)).sum /
        (daily_project_switches.length : ℚ)
    { workspace_id := workspace_id
      date_range := date_range
      peak_productivity_hours := mostCommonKeys hour_distribution 8
      peak_productivity_days := mostCommonKeys day_distribution 3
      average_session_length := avg_session_length
      context_switching_frequency := avg_switches_per_day
      deep_work_sessions := deep_work_sessions
      fragmented_time_percentage := fragmented_percentage
      project_time_distribution := project_distribution
      most_productive_projects := mostCommonKeys project_hours 5 }

/-! ## Helper lemmas -/

theorem capHours_fst (t b : ℚ) :
    (capHours t b).1 = if t > 168 then min t 80 else t := by
  unfold capHours
  split_ifs <;> rfl

theorem capHours_billable (t b : ℚ) :
    (capHours t b).2.1 = if t > 168 then min b (min t 80) else b := by
  unfold capHours
  split_ifs <;> rfl

theorem capHours_nonbillable (t b : ℚ) :
    (capHours t b).2.2 = (capHours t b).1 - (capHours t b).2.1 := by
  unfold capHours
  split_ifs <;> rfl

theorem capHours_billable_le (t b : ℚ) (h : b ≤ t) :
    (capHours t b).2.1 ≤ (capHours t b).1 := by
  unfold capHours
  split_ifs with ht
  · exact min_le_right _ _
  · exact h

theorem capHours_self_billable_eq (t : ℚ) :
    (capHours t t).2.1 = (capHours t t).1 := by
  unfold capHours
  split_ifs with ht
  · exact min_eq_right (min_le_left t 80)
  · rfl

theorem pySortDesc_sorted {α : Type} (key : α → ℚ) (l : List α) :
    List.Sorted (fun a b => key b ≤ key a) (pySortDesc key l) := by
  haveI : IsTotal α (fun a b => key b ≤ key a) := ⟨fun a b => le_total (key b) (key a)⟩
  haveI : IsTrans α (fun a b => key b ≤ key a) := ⟨fun a b c h1 h2 => le_trans h2 h1⟩
  exact List.sorted_insertionSort _ l

theorem filter_orderedInsert_key {α : Type} (key : α → ℚ) (v : ℚ) (a : α) :
    ∀ l : List α,
      (List.orderedInsert (fun x y => key y ≤ key x) a l).filter
          (fun x => decide (key x = v)) =
        (a :: l).filter (fun x => decide (key x = v))
  | [] => rfl
  | b :: l => by
    by_cases hr : key b ≤ key a
    · rw [List.orderedInsert, if_pos hr]
    · rw [List.orderedInsert, if_neg hr]
      have hab : key a < key b := lt_of_not_ge hr
      have ih := filter_orderedInsert_key key v a l
      by_cases hav : key a = v <;> by_cases hbv : key b = v
      · exfalso; rw [hav, hbv] at hab; exact lt_irrefl v hab
      · simp [List.filter_cons, hav, hbv, ih]
      · simp [List.filter_cons, hav, hbv, ih]
      · simp [List.filter_cons, hav, hbv, ih]

theorem pySortDesc_stable {α : Type} (key : α → ℚ) (l : List α) (v : ℚ) :
    (pySortDesc key l).filter (fun x => decide (key x = v)) =
      l.filter (fun x => decide (key x = v)) := by
  induction l with
  | nil => rfl
  | cons a l ih =>
    have h1 : pySortDesc key (a :: l)
        = List.orderedInsert (fun x y => key y ≤ key x) a (pySortDesc key l) := rfl
    rw [h1, filter_orderedInsert_key]
    simp only [List.filter_cons, ih]

theorem map_sum_congr {α : Type} (f g : α → ℚ) (h : ∀ a, f a = g a) (l : List α) :
    (l.map f).sum = (l.map g).sum := by
  rw [funext h]

theorem processProfitabilityFromV3Data_margin (lcp : ℚ) (entries : List V3Entry) (c : String) :
    (processProfitabilityFromV3Data lcp entries c).profit_margin =
      if (processProfitabilityFromV3Data lcp entries c).total_revenue > 0
        then (processProfitabilityFromV3Data lcp entries c).total_profit /
          (processProfitabilityFromV3Data lcp entries c).total_revenue * 100
        else 0 := rfl

theorem projectUtilizationRate_def (p : ProjectProfitability) :
    p.utilization_rate =
      if p.total_hours = 0 then 0 else p.billable_hours / p.total_hours * 100 := rfl

theorem employeeUtilizationRate_def (e : EmployeeProfitability) :
    e.utilization_rate =
      if e.total_hours = 0 then 0 else e.billable_hours / e.total_hours * 100 := rfl

theorem exceptMap_ok {ε α β : Type} {e : Except ε α} {f : α → β} {b : β}
    (h : e.map f = Except.ok b) : ∃ a, e = Except.ok a ∧ b = f a := by
  cases e with
  | error err => simp [Except.map] at h
  | ok a =>
    refine ⟨a, rfl, ?_⟩
    have hb : Except.ok (f a) = Except.ok b := h
    exact (Except.ok.inj hb).symm

theorem laborCostFromItems_ok {items : List SubEntry} {q : ℚ}
    (h : laborCostFromItems items = Except.ok q) : items = [] ∧ q = 0 := by
  cases items with
  | nil => exact ⟨rfl, (Except.ok.inj h).symm⟩
  | cons a l => exact absurd h (by simp [laborCostFromItems])

theorem processProjectItem_ok {c : String} {item : GroupItem} {r : ProjectProfitability}
    (h : processProjectItem c item = Except.ok r) :
    item.items = [] ∧ r = buildProjectRecord c item 0 := by
  obtain ⟨q, hq, hb⟩ := exceptMap_ok h
  obtain ⟨hi, rfl⟩ := laborCostFromItems_ok hq
  exact ⟨hi, hb⟩

theorem processEmployeeItem_ok {ins : Option GroupItem} {item : GroupItem}
    {r : EmployeeProfitability} (h : processEmployeeItem ins item = Except.ok r) :
    item.items = [] ∧ r = buildEmployeeRecord ins item 0 := by
  obtain ⟨q, hq, hb⟩ := exceptMap_ok h
  obtain ⟨hi, rfl⟩ := laborCostFromItems_ok hq
  exact ⟨hi, hb⟩

theorem processClientItem_ok {ins : Option GroupItem} {c : String} {item : GroupItem}
    {r : ClientProfitability} (h : processClientItem ins c item = Except.ok r) :
    r = buildClientRecord ins c item 0 := by
  obtain ⟨q, hq, hb⟩ := exceptMap_ok h
  obtain ⟨hi, rfl⟩ := laborCostFromItems_ok hq
  exact hb

theorem processOrganizationSummary_ok {sd ins : ReportPayload} {w : WorkspaceInfo}
    {dr : String} {r : OrganizationSummary}
    (h : processOrganizationSummary sd ins w dr = Except.ok r) :
    ∃ tlc, r = buildOrganizationSummary sd ins w dr tlc := by
  obtain ⟨tlc, hf, hb⟩ := exceptMap_ok h
  exact ⟨tlc, hb⟩

/-! ## Claim theorems -/

/-- C1, counterexample: feeding the Scenario A entry through the
summary/insights aggregation (one canonical entry, 10 hours =
36,000,000 ms at rate 60, revenue $1000) produces no record with
`labor_cost = 360` at all: the per-item labor loop raises `TypeError`
(float * Decimal), the `except` drops the item, and the aggregation
returns the empty list. -/
theorem C1_counterexample :
    processProjectProfitability
        ⟨0, 0, [], some [⟨some 1, ⟨none, none, none, none⟩, 36000000,
          [⟨"USD", 1000⟩], [⟨36000000, 60⟩]⟩]⟩ "USD" = [] ∧
      processProjectItem "USD"
        ⟨some 1, ⟨none, none, none, none⟩, 36000000, [⟨"USD", 1000⟩],
          [⟨36000000, 60⟩]⟩ = Except.error PyTypeError.floatTimesDecimal :=
  ⟨rfl, rfl⟩

/-- C1, amended: the per-entry `hours * rate * labor_cost_percentage`
summation holds on the detailed-v3 path, where Scenario A (one entry,
revenue $1000, 10 h at $60/hr, percentage 0.6) yields labor cost 360,
profit 640 and margin 64%.  On the summary/insights path the per-entry
labor computation raises `TypeError` for any group with entries — the
project record is dropped rather than produced — and every record that
path does produce has labor cost 0. -/
theorem C1_theorem :
    (∀ (lcp : ℚ) (entries : List V3Entry),
      calculateLaborCostFromV3Data lcp entries =
        (entries.map (fun e =>
          (e.time_entries.map (fun te =>
            ((te.seconds : ℚ) / 3600) * (safeDecimal e.hourly_rate_in_cents / 100) *
              lcp)).sum)).sum) ∧
      (processProfitabilityFromV3Data (6 / 10) [⟨6000, 100000, [⟨36000⟩]⟩]
        "USD").total_labor_cost = 360 ∧
      (processProfitabilityFromV3Data (6 / 10) [⟨6000, 100000, [⟨36000⟩]⟩]
        "USD").total_profit = 640 ∧
      (processProfitabilityFromV3Data (6 / 10) [⟨6000, 100000, [⟨36000⟩]⟩]
        "USD").profit_margin = 64 ∧
      (∀ (c : String) (item : GroupItem),
        item.items ≠ [] →
          processProjectItem c item = Except.error PyTypeError.floatTimesDecimal) ∧
      (∀ (c : String) (item : GroupItem) (r : ProjectProfitability),
        processProjectItem c item = Except.ok r → r.labor_cost = 0) := by
  refine ⟨?_, by with_unfolding_all decide, by with_unfolding_all decide,
    by with_unfolding_all decide, fun c item hne => ?_, fun c item r h => ?_⟩
  · intro lcp entries
    unfold calculateLaborCostFromV3Data
    apply map_sum_congr
    intro e
    apply map_sum_congr
    intro te
    ring
  · cases hi : item.items with
    | nil => exact absurd hi hne
    | cons a l =>
      unfold processProjectItem
      rw [hi]
      rfl
  · obtain ⟨hi, rfl⟩ := processProjectItem_ok h
    rfl

/-- C1 witness: the error clause of the amended claim at a concrete
group carrying one entry. -/
theorem C1_witness :
    processProjectItem "USD"
      ⟨some 2, ⟨none, none, none, none⟩, 3600000, [], [⟨3600000, 50⟩]⟩ =
      Except.error PyTypeError.floatTimesDecimal :=
  C1_theorem.2.2.2.2.1 "USD"
    ⟨some 2, ⟨none, none, none, none⟩, 3600000, [], [⟨3600000, 50⟩]⟩ (by simp)

/-- C2, counterexample: the outlier cap is absent from the client
aggregation level.  A client with 200 tracked hours (720,000,000 ms,
above the 168 h threshold, carrying no sub-entries so the aggregation
completes) is reported with `total_hours = 200`, not capped to 80. -/
theorem C2_counterexample :
    (processClientProfitability
        ⟨0, 0, [], some [⟨some 1, ⟨none, none, some "Acme", none⟩, 720000000, [], []⟩]⟩
        ⟨0, 0, [], none⟩ "USD").map (fun l => l.map (fun c => c.total_hours)) =
      Except.ok [200] ∧
      (200 : ℚ) > 168 ∧ (200 : ℚ) ≠ min 200 80 := by
  refine ⟨by with_unfolding_all rfl, by norm_num, ?_⟩
  rw [min_def]
  norm_num

/-- C2, amended: for every record the aggregation actually produces, the
hour cap (threshold 168, ceiling 80, billable capped at the capped
total, non-billable recomputed; pass-through when the total does not
exceed 168) is applied at the organization, project and employee
levels; the client aggregation applies no cap and passes hours through
unchanged. -/
theorem C2_theorem :
    (∀ (sd ins : ReportPayload) (w : WorkspaceInfo) (dr : String) (r : OrganizationSummary),
      processOrganizationSummary sd ins w dr = Except.ok r →
      (r.total_hours =
        (if millisecondsToHours sd.total_grand > 168
          then min (millisecondsToHours sd.total_grand) 80
          else millisecondsToHours sd.total_grand) ∧
      r.billable_hours =
        (if millisecondsToHours sd.total_grand > 168
          then min (millisecondsToHours sd.total_billable)
            (min (millisecondsToHours sd.total_grand) 80)
          else millisecondsToHours sd.total_billable) ∧
      r.non_billable_hours = r.total_hours - r.billable_hours)) ∧
    (∀ (c : String) (item : GroupItem) (r : ProjectProfitability),
      processProjectItem c item = Except.ok r →
      (r.total_hours =
        (if millisecondsToHours item.time > 168
          then min (millisecondsToHours item.time) 80
          else millisecondsToHours item.time) ∧
      r.billable_hours =
        (if millisecondsToHours item.time > 168
          then min (millisecondsToHours item.time) (min (millisecondsToHours item.time) 80)
          else millisecondsToHours item.time) ∧
      r.non_billable_hours = r.total_hours - r.billable_hours)) ∧
    (∀ (ins : Option GroupItem) (item : GroupItem) (r : EmployeeProfitability),
      processEmployeeItem ins item = Except.ok r →
      (r.total_hours =
        (if millisecondsToHours item.time > 168
          then min (millisecondsToHours item.time) 80
          else millisecondsToHours item.time) ∧
      r.billable_hours =
        (if millisecondsToHours item.time > 168
          then min (millisecondsToHours item.time) (min (millisecondsToHours item.time) 80)
          else millisecondsToHours item.time) ∧
      r.non_billable_hours = r.total_hours - r.billable_hours)) ∧
    (∀ (ins : Option GroupItem) (c : String) (item : GroupItem) (r : ClientProfitability),
      processClientItem ins c item = Except.ok r →
      (r.total_hours = millisecondsToHours item.time ∧
       r.billable_hours = millisecondsToHours item.time)) := by
  refine ⟨fun sd ins w dr r h => ?_, fun c item r h => ?_, fun ins item r h => ?_,
    fun ins c item r h => ?_⟩
  · obtain ⟨tlc, rfl⟩ := processOrganizationSummary_ok h
    exact ⟨capHours_fst _ _, capHours_billable _ _, capHours_nonbillable _ _⟩
  · obtain ⟨hi, rfl⟩ := processProjectItem_ok h
    exact ⟨capHours_fst _ _, capHours_billable _ _, capHours_nonbillable _ _⟩
  · obtain ⟨hi, rfl⟩ := processEmployeeItem_ok h
    exact ⟨capHours_fst _ _, capHours_billable _ _, capHours_nonbillable _ _⟩
  · obtain rfl := processClientItem_ok h
    exact ⟨rfl, rfl⟩

/-- C2 witness: the project clause at a concrete 200-hour item that the
program does produce (no sub-entries), showing the cap firing. -/
theorem C2_witness :
    (buildProjectRecord "USD"
        ⟨some 1, ⟨none, none, none, none⟩, 720000000, [], []⟩ 0).total_hours =
      (if millisecondsToHours 720000000 > 168
        then min (millisecondsToHours 720000000) 80
        else millisecondsToHours 720000000) ∧
    (buildProjectRecord "USD"
        ⟨some 1, ⟨none, none, none, none⟩, 720000000, [], []⟩ 0).billable_hours =
      (if millisecondsToHours 720000000 > 168
        then min (millisecondsToHours 720000000) (min (millisecondsToHours 720000000) 80)
        else millisecondsToHours 720000000) ∧
    (buildProjectRecord "USD"
        ⟨some 1, ⟨none, none, none, none⟩, 720000000, [], []⟩ 0).non_billable_hours =
      (buildProjectRecord "USD"
        ⟨some 1, ⟨none, none, none, none⟩, 720000000, [], []⟩ 0).total_hours -
        (buildProjectRecord "USD"
          ⟨some 1, ⟨none, none, none, none⟩, 720000000, [], []⟩ 0).billable_hours :=
  C2_theorem.2.1 "USD" ⟨some 1, ⟨none, none, none, none⟩, 720000000, [], []⟩
    (buildProjectRecord "USD" ⟨some 1, ⟨none, none, none, none⟩, 720000000, [], []⟩ 0) rfl

/-- C3, counterexample: revenue extraction filters on the fixed literal
`'USD'`, not on the call's target currency.  A call with target currency
`"EUR"` and a single EUR amount of 500 yields revenue 0, not 500. -/
theorem C3_counterexample :
    ((processProjectProfitability
        ⟨0, 0, [], some [⟨some 1, ⟨some "P", none, none, none⟩, 3600000,
          [⟨"EUR", 500⟩], []⟩]⟩ "EUR").map (fun p => p.revenue)) = [0] ∧
      (0 : ℚ) ≠ 500 := by
  constructor
  · with_unfolding_all decide
  · norm_num

/-- C3, amended: the revenue of every record the aggregation actually
produces is the quantized amount of the first `total_currencies` element
whose currency is the literal `'USD'` (zero when none exists),
independent of the currency argument of the call. -/
theorem C3_theorem :
    (∀ (c : String) (item : GroupItem) (r : ProjectProfitability),
      processProjectItem c item = Except.ok r →
      r.revenue =
        (match item.total_currencies.find? (fun cu => cu.currency == "USD") with
          | some cu => safeDecimal cu.amount
          | none => 0)) ∧
    (∀ (c₁ c₂ : String) (item : GroupItem) (r₁ r₂ : ProjectProfitability),
      processProjectItem c₁ item = Except.ok r₁ →
      processProjectItem c₂ item = Except.ok r₂ →
      r₁.revenue = r₂.revenue) ∧
    (∀ (ins : Option GroupItem) (item : GroupItem) (r : EmployeeProfitability),
      processEmployeeItem ins item = Except.ok r →
      r.revenue_generated =
        (match ins with
          | some g =>
            (match g.total_currencies.find? (fun cu => cu.currency == "USD") with
              | some cu => safeDecimal cu.amount
              | none => 0)
          | none => 0)) := by
  refine ⟨fun c item r h => ?_, fun c₁ c₂ item r₁ r₂ h₁ h₂ => ?_, fun ins item r h => ?_⟩
  · obtain ⟨hi, rfl⟩ := processProjectItem_ok h
    rfl
  · obtain ⟨hi₁, rfl⟩ := processProjectItem_ok h₁
    obtain ⟨hi₂, rfl⟩ := processProjectItem_ok h₂
    rfl
  · obtain ⟨hi, rfl⟩ := processEmployeeItem_ok h
    cases ins <;> rfl

/-- C3 witness: the project clause at a concrete produced record whose
payload carries only an EUR amount. -/
theorem C3_witness :
    (buildProjectRecord "EUR" ⟨some 1, ⟨some "P", none, none, none⟩, 3600000,
        [⟨"EUR", 500⟩], []⟩ 0).revenue =
      (match ([⟨"EUR", 500⟩] : List CurrencyAmount).find?
          (fun cu => cu.currency == "USD") with
        | some cu => safeDecimal cu.amount
        | none => 0) :=
  C3_theorem.1 "EUR" ⟨some 1, ⟨some "P", none, none, none⟩, 3600000, [⟨"EUR", 500⟩], []⟩
    (buildProjectRecord "EUR" ⟨some 1, ⟨some "P", none, none, none⟩, 3600000,
      [⟨"EUR", 500⟩], []⟩ 0) rfl

/-- C4: for every record the aggregation actually produces, profit
equals revenue minus labor cost exactly, at the project, organization
and client levels, and likewise for the detailed-v3 summary. -/
theorem C4_theorem :
    (∀ (c : String) (item : GroupItem) (r : ProjectProfitability),
      processProjectItem c item = Except.ok r →
        r.profit = r.revenue - r.labor_cost) ∧
    (∀ (sd ins : ReportPayload) (w : WorkspaceInfo) (dr : String) (r : OrganizationSummary),
      processOrganizationSummary sd ins w dr = Except.ok r →
        r.total_profit = r.total_revenue - r.total_labor_cost) ∧
    (∀ (ins : Option GroupItem) (c : String) (item : GroupItem) (r : ClientProfitability),
      processClientItem ins c item = Except.ok r →
        r.profit = r.revenue - r.labor_cost) ∧
    (∀ (lcp : ℚ) (entries : List V3Entry) (c : String),
      (processProfitabilityFromV3Data lcp entries c).total_profit =
        (processProfitabilityFromV3Data lcp entries c).total_revenue -
          (processProfitabilityFromV3Data lcp entries c).total_labor_cost) := by
  refine ⟨fun c item r h => ?_, fun sd ins w dr r h => ?_, fun ins c item r h => ?_,
    fun lcp entries c => rfl⟩
  · obtain ⟨hi, rfl⟩ := processProjectItem_ok h
    rfl
  · obtain ⟨tlc, rfl⟩ := processOrganizationSummary_ok h
    rfl
  · obtain rfl := processClientItem_ok h
    rfl

/-- C4 witness: the project clause at a concrete produced record with
nonzero revenue. -/
theorem C4_witness :
    (buildProjectRecord "USD" ⟨some 1, ⟨none, none, none, none⟩, 3600000,
        [⟨"USD", 250⟩], []⟩ 0).profit =
      (buildProjectRecord "USD" ⟨some 1, ⟨none, none, none, none⟩, 3600000,
        [⟨"USD", 250⟩], []⟩ 0).revenue -
        (buildProjectRecord "USD" ⟨some 1, ⟨none, none, none, none⟩, 3600000,
          [⟨"USD", 250⟩], []⟩ 0).labor_cost :=
  C4_theorem.1 "USD" ⟨some 1, ⟨none, none, none, none⟩, 3600000, [⟨"USD", 250⟩], []⟩
    (buildProjectRecord "USD" ⟨some 1, ⟨none, none, none, none⟩, 3600000,
      [⟨"USD", 250⟩], []⟩ 0) rfl

/-- C5, counterexample: the organization summary converts total and
billable milliseconds independently; with billable 7,200,000 ms and
total 3,600,000 ms (below the cap threshold, no sub-entries so the
computation completes) the produced record has `billable_hours = 2 >
total_hours = 1`. -/
theorem C5_counterexample :
    processOrganizationSummary ⟨3600000, 7200000, [], none⟩ ⟨0, 0, [], none⟩
        ⟨1, "W", "USD"⟩ "dr" =
      Except.ok (buildOrganizationSummary ⟨3600000, 7200000, [], none⟩
        ⟨0, 0, [], none⟩ ⟨1, "W", "USD"⟩ "dr" 0) ∧
    (buildOrganizationSummary ⟨3600000, 7200000, [], none⟩ ⟨0, 0, [], none⟩
      ⟨1, "W", "USD"⟩ "dr" 0).total_hours = 1 ∧
    (buildOrganizationSummary ⟨3600000, 7200000, [], none⟩ ⟨0, 0, [], none⟩
      ⟨1, "W", "USD"⟩ "dr" 0).billable_hours = 2 ∧
    ¬((buildOrganizationSummary ⟨3600000, 7200000, [], none⟩ ⟨0, 0, [], none⟩
      ⟨1, "W", "USD"⟩ "dr" 0).billable_hours ≤
        (buildOrganizationSummary ⟨3600000, 7200000, [], none⟩ ⟨0, 0, [], none⟩
          ⟨1, "W", "USD"⟩ "dr" 0).total_hours) := by
  refine ⟨by with_unfolding_all rfl, by with_unfolding_all decide,
    by with_unfolding_all decide, by with_unfolding_all decide⟩

/-- C5, amended: `billable_hours ≤ total_hours` holds for every project,
employee and client record the aggregation actually produces (billable
time equals total time there); for a produced organization summary it
holds whenever the raw billable milliseconds do not exceed the raw total
milliseconds. -/
theorem C5_theorem :
    (∀ (c : String) (item : GroupItem) (r : ProjectProfitability),
      processProjectItem c item = Except.ok r →
        r.billable_hours ≤ r.total_hours) ∧
    (∀ (ins : Option GroupItem) (item : GroupItem) (r : EmployeeProfitability),
      processEmployeeItem ins item = Except.ok r →
        r.billable_hours ≤ r.total_hours) ∧
    (∀ (ins : Option GroupItem) (c : String) (item : GroupItem) (r : ClientProfitability),
      processClientItem ins c item = Except.ok r →
        r.billable_hours ≤ r.total_hours) ∧
    (∀ (sd ins : ReportPayload) (w : WorkspaceInfo) (dr : String) (r : OrganizationSummary),
      sd.total_billable ≤ sd.total_grand →
        processOrganizationSummary sd ins w dr = Except.ok r →
          r.billable_hours ≤ r.total_hours) := by
  refine ⟨fun c item r h => ?_, fun ins item r h => ?_, fun ins c item r h => ?_,
    fun sd ins w dr r hle h => ?_⟩
  · obtain ⟨hi, rfl⟩ := processProjectItem_ok h
    exact le_of_eq (capHours_self_billable_eq _)
  · obtain ⟨hi, rfl⟩ := processEmployeeItem_ok h
    exact le_of_eq (capHours_self_billable_eq _)
  · obtain rfl := processClientItem_ok h
    exact le_refl _
  · obtain ⟨tlc, rfl⟩ := processOrganizationSummary_ok h
    exact capHours_billable_le _ _ (millisecondsToHours_mono hle)

/-- C5 witness: the organization clause at a concrete produced summary
with billable milliseconds below total milliseconds. -/
theorem C5_witness :
    (buildOrganizationSummary ⟨7200000, 3600000, [], none⟩ ⟨0, 0, [], none⟩
      ⟨1, "W", "USD"⟩ "dr" 0).billable_hours ≤
      (buildOrganizationSummary ⟨7200000, 3600000, [], none⟩ ⟨0, 0, [], none⟩
        ⟨1, "W", "USD"⟩ "dr" 0).total_hours :=
  C5_theorem.2.2.2 ⟨7200000, 3600000, [], none⟩ ⟨0, 0, [], none⟩ ⟨1, "W", "USD"⟩ "dr"
    (buildOrganizationSummary ⟨7200000, 3600000, [], none⟩ ⟨0, 0, [], none⟩
      ⟨1, "W", "USD"⟩ "dr" 0) (by norm_num) rfl

/-- C6: whenever a produced record's revenue is zero, its profit margin
is exactly zero (the guarded computation never divides), at the project,
client and detailed-v3 levels; Scenario B (revenue $0, 5 h at $60/hr,
percentage 0.6) yields labor cost 180, profit -180 and margin 0 on the
v3 path. -/
theorem C6_theorem :
    (∀ (c : String) (item : GroupItem) (r : ProjectProfitability),
      processProjectItem c item = Except.ok r →
        r.revenue = 0 → r.profit_margin = 0) ∧
    (∀ (ins : Option GroupItem) (c : String) (item : GroupItem) (r : ClientProfitability),
      processClientItem ins c item = Except.ok r →
        r.revenue = 0 → r.profit_margin = 0) ∧
    (∀ (lcp : ℚ) (entries : List V3Entry) (c : String),
      (processProfitabilityFromV3Data lcp entries c).total_revenue = 0 →
        (processProfitabilityFromV3Data lcp entries c).profit_margin = 0) ∧
    ((processProfitabilityFromV3Data (6 / 10) [⟨6000, 0, [⟨18000⟩]⟩]
        "USD").total_labor_cost = 180 ∧
      (processProfitabilityFromV3Data (6 / 10) [⟨6000, 0, [⟨18000⟩]⟩]
        "USD").total_profit = -180 ∧
      (processProfitabilityFromV3Data (6 / 10) [⟨6000, 0, [⟨18000⟩]⟩]
        "USD").profit_margin = 0) := by
  refine ⟨fun c item r h hrev => ?_, fun ins c item r h hrev => ?_,
    fun lcp entries c h => ?_, by with_unfolding_all decide,
    by with_unfolding_all decide, by with_unfolding_all decide⟩
  · obtain ⟨hi, rfl⟩ := processProjectItem_ok h
    have hm : (buildProjectRecord c item 0).profit_margin =
        if (buildProjectRecord c item 0).revenue > 0
          then (buildProjectRecord c item 0).profit /
            (buildProjectRecord c item 0).revenue * 100
          else 0 := rfl
    rw [hm, hrev]
    norm_num
  · obtain rfl := processClientItem_ok h
    have hm : (buildClientRecord ins c item 0).profit_margin =
        if (buildClientRecord ins c item 0).revenue > 0
          then (buildClientRecord ins c item 0).profit /
            (buildClientRecord ins c item 0).revenue * 100
          else 0 := rfl
    rw [hm, hrev]
    norm_num
  · rw [processProfitabilityFromV3Data_margin, h]
    norm_num

/-- C6 witness: the project clause at a concrete produced record with no
USD revenue. -/
theorem C6_witness :
    (buildProjectRecord "USD"
      ⟨some 1, ⟨none, none, none, none⟩, 18000000, [], []⟩ 0).profit_margin = 0 :=
  C6_theorem.1 "USD" ⟨some 1, ⟨none, none, none, none⟩, 18000000, [], []⟩
    (buildProjectRecord "USD" ⟨some 1, ⟨none, none, none, none⟩, 18000000, [], []⟩ 0)
    rfl rfl

/-- C7: for every record the aggregation actually produces, billable
rate is `revenue / billable_hours` when `billable_hours > 0` and the
undefined sentinel `none` otherwise, for project and employee records. -/
theorem C7_theorem :
    (∀ (c : String) (item : GroupItem) (r : ProjectProfitability),
      processProjectItem c item = Except.ok r →
      r.billable_rate =
        (if r.billable_hours > 0 then some (r.revenue / r.billable_hours) else none)) ∧
    (∀ (ins : Option GroupItem) (item : GroupItem) (r : EmployeeProfitability),
      processEmployeeItem ins item = Except.ok r →
      r.billable_rate =
        (if r.billable_hours > 0
          then some (r.revenue_generated / r.billable_hours) else none)) := by
  refine ⟨fun c item r h => ?_, fun ins item r h => ?_⟩
  · obtain ⟨hi, rfl⟩ := processProjectItem_ok h
    rfl
  · obtain ⟨hi, rfl⟩ := processEmployeeItem_ok h
    rfl

/-- C7 witness: the project clause at a concrete produced record with
positive billable hours. -/
theorem C7_witness :
    (buildProjectRecord "USD" ⟨some 1, ⟨none, none, none, none⟩, 3600000,
        [⟨"USD", 100⟩], []⟩ 0).billable_rate =
      (if (buildProjectRecord "USD" ⟨some 1, ⟨none, none, none, none⟩, 3600000,
          [⟨"USD", 100⟩], []⟩ 0).billable_hours > 0
        then some ((buildProjectRecord "USD" ⟨some 1, ⟨none, none, none, none⟩, 3600000,
            [⟨"USD", 100⟩], []⟩ 0).revenue /
          (buildProjectRecord "USD" ⟨some 1, ⟨none, none, none, none⟩, 3600000,
            [⟨"USD", 100⟩], []⟩ 0).billable_hours)
        else none) :=
  C7_theorem.1 "USD" ⟨some 1, ⟨none, none, none, none⟩, 3600000, [⟨"USD", 100⟩], []⟩
    (buildProjectRecord "USD" ⟨some 1, ⟨none, none, none, none⟩, 3600000,
      [⟨"USD", 100⟩], []⟩ 0) rfl

/-- C8: an empty detailed-entry list yields the time-tracking-insights
record with all list/map fields empty and all numeric fields zero, and a
payload whose `data` collection is missing or empty yields an empty list
of project-profitability records; no failure path exists. -/
theorem C8_theorem :
    (∀ (w : ℤ) (dr : String),
      processTimeTrackingInsights [] w dr =
        { workspace_id := w, date_range := dr, peak_productivity_hours := [],
          peak_productivity_days := [], average_session_length := 0,
          context_switching_frequency := 0, deep_work_sessions := 0,
          fragmented_time_percentage := 0, project_time_distribution := [],
          most_productive_projects := [] }) ∧
    (∀ (tg tb : ℤ) (tc : List CurrencyAmount) (c : String),
      processProjectProfitability ⟨tg, tb, tc, none⟩ c = []) ∧
    (∀ (tg tb : ℤ) (tc : List CurrencyAmount) (c : String),
      processProjectProfitability ⟨tg, tb, tc, some []⟩ c = []) :=
  ⟨fun _ _ => rfl, fun _ _ _ _ => rfl, fun _ _ _ _ => rfl⟩

/-- C9: the processor's output is sorted descending by profit (the
default), the presentation layer additionally supports descending sorts
by revenue, margin and hours, and every such sort is stable: the
elements carrying any fixed key value appear in the same order as in the
input list. -/
theorem C9_theorem :
    (∀ (d : ReportPayload) (c : String),
      List.Sorted (fun p q : ProjectProfitability => q.profit ≤ p.profit)
        (processProjectProfitability d c)) ∧
    (∀ (d : ReportPayload) (c : String),
      List.Sorted (fun p q : ProjectProfitability => q.profit ≤ p.profit)
        (sortProjects "profit" (processProjectProfitability d c))) ∧
    (∀ l : List ProjectProfitability,
      List.Sorted (fun p q : ProjectProfitability => q.revenue ≤ p.revenue)
        (sortProjects "revenue" l)) ∧
    (∀ l : List ProjectProfitability,
      List.Sorted (fun p q : ProjectProfitability => q.profit_margin ≤ p.profit_margin)
        (sortProjects "margin" l)) ∧
    (∀ l : List ProjectProfitability,
      List.Sorted (fun p q : ProjectProfitability => q.total_hours ≤ p.total_hours)
        (sortProjects "hours" l)) ∧
    (∀ (key : ProjectProfitability → ℚ) (l : List ProjectProfitability) (v : ℚ),
      (pySortDesc key l).filter (fun p => decide (key p = v)) =
        l.filter (fun p => decide (key p = v))) := by
  refine ⟨fun d c => pySortDesc_sorted (fun p : ProjectProfitability => p.profit) _,
    fun d c => ?_, fun l => ?_, fun l => ?_, fun l => ?_,
    fun key l v => pySortDesc_stable key l v⟩
  · have h : sortProjects "profit" (processProjectProfitability d c) =
        processProjectProfitability d c := rfl
    rw [h]
    exact pySortDesc_sorted (fun p : ProjectProfitability => p.profit) _
  · have h : sortProjects "revenue" l = pySortDesc (fun p => p.revenue) l := rfl
    rw [h]
    exact pySortDesc_sorted _ _
  · have h : sortProjects "margin" l = pySortDesc (fun p => p.profit_margin) l := rfl
    rw [h]
    exact pySortDesc_sorted _ _
  · have h : sortProjects "hours" l = pySortDesc (fun p => p.total_hours) l := rfl
    rw [h]
    exact pySortDesc_sorted _ _

/-- C10: every project, employee and client record actually produced
from summary/insights payloads sets billable hours equal to total hours,
so the derived utilization rate is exactly 100% whenever total hours are
nonzero and 0% when they are zero. -/
theorem C10_theorem :
    (∀ (c : String) (item : GroupItem) (r : ProjectProfitability),
      processProjectItem c item = Except.ok r →
      (r.billable_hours = r.total_hours ∧
       r.utilization_rate = (if r.total_hours = 0 then 0 else 100))) ∧
    (∀ (ins : Option GroupItem) (item : GroupItem) (r : EmployeeProfitability),
      processEmployeeItem ins item = Except.ok r →
      (r.billable_hours = r.total_hours ∧
       r.utilization_rate = (if r.total_hours = 0 then 0 else 100))) ∧
    (∀ (ins : Option GroupItem) (c : String) (item : GroupItem) (r : ClientProfitability),
      processClientItem ins c item = Except.ok r →
        r.billable_hours = r.total_hours) := by
  refine ⟨fun c item r h => ?_, fun ins item r h => ?_, fun ins c item r h => ?_⟩
  · obtain ⟨hi, rfl⟩ := processProjectItem_ok h
    have hb : (buildProjectRecord c item 0).billable_hours =
        (buildProjectRecord c item 0).total_hours := capHours_self_billable_eq _
    refine ⟨hb, ?_⟩
    rw [projectUtilizationRate_def, hb]
    split_ifs with h0
    · rfl
    · rw [div_self h0, one_mul]
  · obtain ⟨hi, rfl⟩ := processEmployeeItem_ok h
    have hb : (buildEmployeeRecord ins item 0).billable_hours =
        (buildEmployeeRecord ins item 0).total_hours := capHours_self_billable_eq _
    refine ⟨hb, ?_⟩
    rw [employeeUtilizationRate_def, hb]
    split_ifs with h0
    · rfl
    · rw [div_self h0, one_mul]
  · obtain rfl := processClientItem_ok h
    rfl

/-- C10 witness: the project clause at a concrete produced record with
5 tracked hours. -/
theorem C10_witness :
    (buildProjectRecord "USD" ⟨some 1, ⟨none, none, none, none⟩, 18000000,
        [⟨"USD", 300⟩], []⟩ 0).billable_hours =
      (buildProjectRecord "USD" ⟨some 1, ⟨none, none, none, none⟩, 18000000,
        [⟨"USD", 300⟩], []⟩ 0).total_hours ∧
    (buildProjectRecord "USD" ⟨some 1, ⟨none, none, none, none⟩, 18000000,
        [⟨"USD", 300⟩], []⟩ 0).utilization_rate =
      (if (buildProjectRecord "USD" ⟨some 1, ⟨none, none, none, none⟩, 18000000,
          [⟨"USD", 300⟩], []⟩ 0).total_hours = 0 then 0 else 100) :=
  C10_theorem.1 "USD" ⟨some 1, ⟨none, none, none, none⟩, 18000000, [⟨"USD", 300⟩], []⟩
    (buildProjectRecord "USD" ⟨some 1, ⟨none, none, none, none⟩, 18000000,
      [⟨"USD", 300⟩], []⟩ 0) rfl

end TogglAdmin
